import Mathlib

/-
  Verification of the glibc compatibility shim
  (src/scripts/glibc-shim/glibc_shim.c).

  The shim exports six entry points:
    - four C23 string-to-integer conversion wrappers that forward to
      the host runtime's strtol / strtoul / strtoll / strtoull, and
    - two pidfd stubs (pidfd_spawnp, pidfd_getpid) that always set
      errno to ENOSYS and return -1.

  Machine model: the per-call observable state is the errno variable,
  the contents of the end-pointer slot (when the caller supplied one),
  and the contents of the pidfd output slot.  Strings are lists of
  characters; pointer positions are offsets into the input string.
  The target is an LP64 host (long and long long are both 64 bits),
  matching the binary the shim was written for.
-/

namespace GlibcShim

/-- Linux errno value for "function not implemented". -/
def ENOSYS : Nat := 38

/-- Linux errno value for "result out of range". -/
def ERANGE : Nat := 34

/-- Largest value of a 64-bit signed long. -/
def LONG_MAX : Int := 2 ^ 63 - 1

/-- Smallest value of a 64-bit signed long. -/
def LONG_MIN : Int := -(2 ^ 63)

/-- Largest value of a 64-bit unsigned long, as a natural number. -/
def ULONG_MAX : Nat := 2 ^ 64 - 1

/-- Observable state touched by the shim's entry points: the
per-calling-context errno variable, the contents of the caller's
end-pointer slot (offset into the input string), and the contents of
the caller's pidfd output slot. -/
structure CState where
  errno : Nat
  endSlot : Option Nat
  pidfdSlot : Option Int
deriving DecidableEq, Repr

/-- Modelled from the spec: C isspace on the default locale, as used by
the standard conversion routines to skip leading white space. -/
def isSpace (c : Char) : Bool :=
  c = ' ' || c = '\t' || c = '\n' || c.toNat = 11 || c.toNat = 12 || c = '\r'

/-- Modelled from the spec: the numeric value of a character as a digit
(0-9, a-z, A-Z give 0..35), or none when it is not alphanumeric. -/
def digitVal (c : Char) : Option Nat :=
  if 48 ≤ c.toNat && c.toNat ≤ 57 then some (c.toNat - 48)
  else if 97 ≤ c.toNat && c.toNat ≤ 122 then some (c.toNat - 87)
  else if 65 ≤ c.toNat && c.toNat ≤ 90 then some (c.toNat - 55)
  else none

/-- Skip leading white space, returning how many characters were
skipped and the remaining characters. -/
def skipWs : List Char → Nat × List Char
  | [] => (0, [])
  | c :: rest =>
    if isSpace c then
      let p := skipWs rest
      (p.1 + 1, p.2)
    else (0, c :: rest)

/-- Read an optional sign: returns (negative?, characters consumed,
remaining characters). -/
def readSign : List Char → Bool × Nat × List Char
  | '-' :: r => (true, 1, r)
  | '+' :: r => (false, 1, r)
  | s => (false, 0, s)

/-- Modelled from the spec: a string starts with a usable hexadecimal
prefix when it begins with 0x or 0X followed by a hexadecimal digit. -/
def hexStart : List Char → Bool
  | '0' :: x :: d :: _ =>
    (x = 'x' || x = 'X') &&
      (match digitVal d with
       | some v => v < 16
       | none => false)
  | _ => false

/-- Modelled from the spec: base-0 auto-detection of hex/octal prefixes
and the optional 0x prefix of base 16.  Returns the effective base and
the number of prefix characters consumed. -/
def effBase (b : Nat) (s : List Char) : Nat × Nat :=
  if b = 16 then
    if hexStart s then (16, 2) else (16, 0)
  else if b = 0 then
    if hexStart s then (16, 2)
    else
      match s with
      | '0' :: _ => (8, 0)
      | _ => (10, 0)
  else (b, 0)

/-- Consume digits valid in base b, accumulating the magnitude.
Returns the accumulated magnitude and the number of digits consumed. -/
def parseDigits (b : Nat) : Nat → List Char → Nat × Nat
  | acc, [] => (acc, 0)
  | acc, c :: rest =>
    match digitVal c with
    | some d =>
      if d < b then
        let p := parseDigits b (acc * b + d) rest
        (p.1, p.2 + 1)
      else (acc, 0)
    | none => (acc, 0)

/-- Result of scanning the subject sequence of a conversion input:
sign, magnitude, number of digits, and the end position (offset of the
first unparsed character; 0 when no conversion was performed). -/
structure ScanOut where
  neg : Bool
  mag : Nat
  nd : Nat
  endpos : Nat
deriving DecidableEq, Repr

/-- Modelled from the spec: scan the longest initial subject sequence
of a strto* input — optional white space, optional sign, optional base
prefix, then digits of the effective base.  When no digits are found
the end position is 0 (the end pointer equals the start pointer). -/
def scanInt (s : List Char) (b : Nat) : ScanOut :=
  let w := skipWs s
  let g := readSign w.2
  let e := effBase b g.2.2
  let p := parseDigits e.1 0 (g.2.2.drop e.2)
  if p.2 = 0 then ⟨false, 0, 0, 0⟩
  else ⟨g.1, p.1, p.2, w.1 + g.2.1 + e.2 + p.2⟩

/-- A conversion base accepted by the standard routines. -/
abbrev validBase (base : Int) : Prop := base = 0 ∨ (2 ≤ base ∧ base ≤ 36)

/-- Pure outcome of one standard conversion: the returned value, the
end position written through a non-null end pointer, and whether the
routine reported an out-of-range error. -/
structure ParseOut where
  value : Int
  endpos : Nat
  ovf : Bool
deriving DecidableEq, Repr

/-- Modelled from the spec: the signed conversion core shared by
strtol and strtoll — clamp to [minV, maxV] with ERANGE on overflow;
invalid bases convert nothing. -/
def strtoSigned (minV maxV : Int) (s : List Char) (base : Int) : ParseOut :=
  if validBase base then
    let o := scanInt s base.toNat
    let v : Int := if o.neg then -(o.mag : Int) else (o.mag : Int)
    if v < minV then ⟨minV, o.endpos, true⟩
    else if maxV < v then ⟨maxV, o.endpos, true⟩
    else ⟨v, o.endpos, false⟩
  else ⟨0, 0, false⟩

/-- Modelled from the spec: the unsigned conversion core shared by
strtoul and strtoull — magnitudes above maxV clamp to maxV with
ERANGE; a leading minus sign negates the value modulo maxV + 1;
invalid bases convert nothing. -/
def strtoUnsigned (maxV : Nat) (s : List Char) (base : Int) : ParseOut :=
  if validBase base then
    let o := scanInt s base.toNat
    if maxV < o.mag then ⟨(maxV : Int), o.endpos, true⟩
    else
      ⟨(if o.neg then (((maxV + 1 - o.mag) % (maxV + 1) : Nat) : Int)
        else (o.mag : Int)), o.endpos, false⟩
  else ⟨0, 0, false⟩

/-- Modelled from the spec: the host runtime's strtol.  The underlying
standard conversion routines are not part of this repository; they are
modelled from the spec's description of pre-C23 conversion semantics
(base-0 hex/octal auto-detection, end pointer at the first unparsed
character, zero with end = start on malformed input, ERANGE clamping
on out-of-range values).  The endptrIsNull flag says whether the
caller passed a null end-pointer slot; a non-null slot receives the
end position, errno is set only on overflow. -/
def strtol (st : CState) (s : List Char) (endptrIsNull : Bool) (base : Int) :
    Int × CState :=
  let o := strtoSigned LONG_MIN LONG_MAX s base
  (o.value,
   { st with
       errno := if o.ovf then ERANGE else st.errno,
       endSlot := if endptrIsNull then st.endSlot else some o.endpos })

/-- Modelled from the spec: the host runtime's strtoul (see strtol). -/
def strtoul (st : CState) (s : List Char) (endptrIsNull : Bool) (base : Int) :
    Int × CState :=
  let o := strtoUnsigned ULONG_MAX s base
  (o.value,
   { st with
       errno := if o.ovf then ERANGE else st.errno,
       endSlot := if endptrIsNull then st.endSlot else some o.endpos })

/-- Modelled from the spec: the host runtime's strtoll; on the LP64
host long long has the same width as long (see strtol). -/
def strtoll (st : CState) (s : List Char) (endptrIsNull : Bool) (base : Int) :
    Int × CState :=
  let o := strtoSigned LONG_MIN LONG_MAX s base
  (o.value,
   { st with
       errno := if o.ovf then ERANGE else st.errno,
       endSlot := if endptrIsNull then st.endSlot else some o.endpos })

/-- Modelled from the spec: the host runtime's strtoull (see strtoll). -/
def strtoull (st : CState) (s : List Char) (endptrIsNull : Bool) (base : Int) :
    Int × CState :=
  let o := strtoUnsigned ULONG_MAX s base
  (o.value,
   { st with
       errno := if o.ovf then ERANGE else st.errno,
       endSlot := if endptrIsNull then st.endSlot else some o.endpos })

/-- Shim entry point, translated from the source: forwards its
arguments verbatim to strtol and returns its result. -/
def __isoc23_strtol (st : CState) (nptr : List Char) (endptrIsNull : Bool)
    (base : Int) : Int × CState :=
  strtol st nptr endptrIsNull base

/-- Shim entry point, translated from the source: forwards its
arguments verbatim to strtoul and returns its result. -/
def __isoc23_strtoul (st : CState) (nptr : List Char) (endptrIsNull : Bool)
    (base : Int) : Int × CState :=
  strtoul st nptr endptrIsNull base

/-- Shim entry point, translated from the source: forwards its
arguments verbatim to strtoll and returns its result. -/
def __isoc23_strtoll (st : CState) (nptr : List Char) (endptrIsNull : Bool)
    (base : Int) : Int × CState :=
  strtoll st nptr endptrIsNull base

/-- Shim entry point, translated from the source: forwards its
arguments verbatim to strtoull and returns its result. -/
def __isoc23_strtoull (st : CState) (nptr : List Char) (endptrIsNull : Bool)
    (base : Int) : Int × CState :=
  strtoull st nptr endptrIsNull base

/-- Shim stub, translated from the source: ignores every argument,
sets errno to ENOSYS and returns -1.  In particular it never writes
through the pidfd output slot. -/
def pidfd_spawnp (st : CState) (pidfdIsNull : Bool) (file : Option (List Char))
    (fileActions attrp : Option Unit)
    (argv envp : Option (List (List Char))) : Int × CState :=
  (-1, { st with errno := ENOSYS })

/-- Shim stub, translated from the source: ignores its pidfd argument,
sets errno to ENOSYS and returns -1. -/
def pidfd_getpid (st : CState) (pidfd : Int) : Int × CState :=
  (-1, { st with errno := ENOSYS })

/-- When the scan finds no digits, it reports the all-zero scan with
end position 0 (end pointer equal to the start pointer). -/
theorem scanInt_eq_of_nd_zero (s : List Char) (b : Nat)
    (h : (scanInt s b).nd = 0) : scanInt s b = ⟨false, 0, 0, 0⟩ := by
  simp only [scanInt] at h ⊢
  split
  next hc => rfl
  next hc =>
    rw [if_neg hc] at h
    exact absurd h hc

/-- Signed conversion of a digitless input yields zero, end position 0
and no overflow. -/
theorem strtoSigned_long_nd_zero (s : List Char) (base : Int)
    (h : (scanInt s base.toNat).nd = 0) :
    strtoSigned LONG_MIN LONG_MAX s base = ⟨0, 0, false⟩ := by
  unfold strtoSigned
  split
  · rw [scanInt_eq_of_nd_zero _ _ h]
    norm_num [LONG_MIN, LONG_MAX]
  · rfl

/-- Unsigned conversion of a digitless input yields zero, end position
0 and no overflow. -/
theorem strtoUnsigned_ulong_nd_zero (s : List Char) (base : Int)
    (h : (scanInt s base.toNat).nd = 0) :
    strtoUnsigned ULONG_MAX s base = ⟨0, 0, false⟩ := by
  unfold strtoUnsigned
  split
  · rw [scanInt_eq_of_nd_zero _ _ h]
    norm_num [ULONG_MAX]
  · rfl

/-- C1: for every state, input string, end-pointer slot (null or not)
and base, each of the four shimmed C23 conversion functions yields the
same return value and the same final state — in particular the same
end-pointer position — as the corresponding pre-existing standard
conversion function applied to the same arguments. -/
theorem isoc23_forwarding_equivalence (st : CState) (s : List Char)
    (en : Bool) (base : Int) :
    __isoc23_strtol st s en base = strtol st s en base ∧
    __isoc23_strtoul st s en base = strtoul st s en base ∧
    __isoc23_strtoll st s en base = strtoll st s en base ∧
    __isoc23_strtoull st s en base = strtoull st s en base :=
  ⟨rfl, rfl, rfl, rfl⟩

/-- C2: for all argument values, including nulls for the optional
pointer arguments, pidfd_spawnp returns -1 and sets errno to ENOSYS. -/
theorem pidfd_spawnp_always_enosys (st : CState) (pn : Bool)
    (file : Option (List Char)) (fa ap : Option Unit)
    (argv envp : Option (List (List Char))) :
    (pidfd_spawnp st pn file fa ap argv envp).1 = -1 ∧
    (pidfd_spawnp st pn file fa ap argv envp).2.errno = ENOSYS :=
  ⟨rfl, rfl⟩

/-- C3: for every process-descriptor value (in particular 42),
pidfd_getpid returns -1 and sets errno to ENOSYS. -/
theorem pidfd_getpid_always_enosys (st : CState) (pfd : Int) :
    (pidfd_getpid st pfd).1 = -1 ∧
    (pidfd_getpid st pfd).2.errno = ENOSYS :=
  ⟨rfl, rfl⟩

/-- C4: the shimmed conversion applied to "123" with base 10 returns
123, and a supplied non-null end-pointer slot ends up at offset 3, the
position of the terminating null of the input. -/
theorem isoc23_strtol_123 (st : CState) :
    (__isoc23_strtol st "123".toList false 10).1 = 123 ∧
    (__isoc23_strtol st "123".toList false 10).2.endSlot =
      some "123".toList.length :=
  ⟨rfl, rfl⟩

/-- C5: the shimmed conversion applied to "0x1F" with base 0
auto-detects the hexadecimal prefix and returns 31, with a supplied
end-pointer slot ending at offset 4, the terminating null. -/
theorem isoc23_strtol_hex_auto (st : CState) :
    (__isoc23_strtol st "0x1F".toList false 0).1 = 31 ∧
    (__isoc23_strtol st "0x1F".toList false 0).2.endSlot =
      some "0x1F".toList.length :=
  ⟨rfl, rfl⟩

/-- C6: on malformed input — any string and base on which the scan of
the subject sequence finds no digits, in particular the empty string
with base 10 — every shimmed conversion returns zero and a supplied
end-pointer slot is set to offset 0, the start pointer. -/
theorem conversion_malformed_zero (st : CState) (s : List Char)
    (base : Int) (en : Bool) (h : (scanInt s base.toNat).nd = 0) :
    ((__isoc23_strtol st s en base).1 = 0 ∧
      (__isoc23_strtol st s false base).2.endSlot = some 0) ∧
    ((__isoc23_strtoul st s en base).1 = 0 ∧
      (__isoc23_strtoul st s false base).2.endSlot = some 0) ∧
    ((__isoc23_strtoll st s en base).1 = 0 ∧
      (__isoc23_strtoll st s false base).2.endSlot = some 0) ∧
    ((__isoc23_strtoull st s en base).1 = 0 ∧
      (__isoc23_strtoull st s false base).2.endSlot = some 0) := by
  have hs := strtoSigned_long_nd_zero s base h
  have hu := strtoUnsigned_ulong_nd_zero s base h
  refine ⟨⟨?_, ?_⟩, ⟨?_, ?_⟩, ⟨?_, ?_⟩, ⟨?_, ?_⟩⟩ <;>
    simp [__isoc23_strtol, __isoc23_strtoul, __isoc23_strtoll,
      __isoc23_strtoull, strtol, strtoul, strtoll, strtoull, hs, hu]

/-- Witness for C6 at the empty string with base 10 and an all-zero
initial state. -/
theorem conversion_malformed_zero_witness :
    (scanInt ([] : List Char) (10 : Int).toNat).nd = 0 ∧
    (((__isoc23_strtol ⟨0, none, none⟩ [] true 10).1 = 0 ∧
       (__isoc23_strtol ⟨0, none, none⟩ [] false 10).2.endSlot = some 0) ∧
     ((__isoc23_strtoul ⟨0, none, none⟩ [] true 10).1 = 0 ∧
       (__isoc23_strtoul ⟨0, none, none⟩ [] false 10).2.endSlot = some 0) ∧
     ((__isoc23_strtoll ⟨0, none, none⟩ [] true 10).1 = 0 ∧
       (__isoc23_strtoll ⟨0, none, none⟩ [] false 10).2.endSlot = some 0) ∧
     ((__isoc23_strtoull ⟨0, none, none⟩ [] true 10).1 = 0 ∧
       (__isoc23_strtoull ⟨0, none, none⟩ [] false 10).2.endSlot = some 0)) :=
  ⟨by decide, conversion_malformed_zero ⟨0, none, none⟩ [] 10 true (by decide)⟩

/-- C7: the only state the spawn stubs mutate is errno — the resulting
state is exactly the input state with errno replaced by ENOSYS, so in
particular pidfd_spawnp never writes through the pidfd output slot and
the end-pointer slot is untouched. -/
theorem pidfd_stubs_frame (st : CState) (pn : Bool)
    (file : Option (List Char)) (fa ap : Option Unit)
    (argv envp : Option (List (List Char))) (pfd : Int) :
    (pidfd_spawnp st pn file fa ap argv envp).2.pidfdSlot = st.pidfdSlot ∧
    (pidfd_spawnp st pn file fa ap argv envp).2.endSlot = st.endSlot ∧
    (pidfd_spawnp st pn file fa ap argv envp).2 = { st with errno := ENOSYS } ∧
    (pidfd_getpid st pfd).2.pidfdSlot = st.pidfdSlot ∧
    (pidfd_getpid st pfd).2.endSlot = st.endSlot ∧
    (pidfd_getpid st pfd).2 = { st with errno := ENOSYS } :=
  ⟨rfl, rfl, rfl, rfl, rfl, rfl⟩

/-- C8: the shimmed conversions add no error semantics of their own —
after a shimmed call errno equals whatever the underlying standard
conversion routine left there, for every input. -/
theorem conversion_errno_transparent (st : CState) (s : List Char)
    (en : Bool) (base : Int) :
    (__isoc23_strtol st s en base).2.errno = (strtol st s en base).2.errno ∧
    (__isoc23_strtoul st s en base).2.errno = (strtoul st s en base).2.errno ∧
    (__isoc23_strtoll st s en base).2.errno = (strtoll st s en base).2.errno ∧
    (__isoc23_strtoull st s en base).2.errno = (strtoull st s en base).2.errno :=
  ⟨rfl, rfl, rfl, rfl⟩

/-- C9: every one of the six entry points is a total function — it
terminates and returns a result for every input. -/
theorem entry_points_return (st : CState) (s : List Char) (en : Bool)
    (base : Int) (pn : Bool) (file : Option (List Char))
    (fa ap : Option Unit) (argv envp : Option (List (List Char)))
    (pfd : Int) :
    (∃ r, __isoc23_strtol st s en base = r) ∧
    (∃ r, __isoc23_strtoul st s en base = r) ∧
    (∃ r, __isoc23_strtoll st s en base = r) ∧
    (∃ r, __isoc23_strtoull st s en base = r) ∧
    (∃ r, pidfd_spawnp st pn file fa ap argv envp = r) ∧
    (∃ r, pidfd_getpid st pfd = r) :=
  ⟨⟨_, rfl⟩, ⟨_, rfl⟩, ⟨_, rfl⟩, ⟨_, rfl⟩, ⟨_, rfl⟩, ⟨_, rfl⟩⟩

/-- C10: passing a null end-pointer slot to any shimmed conversion is
safe: the null is forwarded verbatim to the underlying routine, the
end-pointer slot contents are left untouched, and the returned value
equals the one obtained with a non-null slot. -/
theorem null_endptr_safe (st : CState) (s : List Char) (base : Int) :
    (__isoc23_strtol st s true base = strtol st s true base ∧
      (__isoc23_strtol st s true base).2.endSlot = st.endSlot ∧
      (__isoc23_strtol st s true base).1 = (__isoc23_strtol st s false base).1) ∧
    (__isoc23_strtoul st s true base = strtoul st s true base ∧
      (__isoc23_strtoul st s true base).2.endSlot = st.endSlot ∧
      (__isoc23_strtoul st s true base).1 = (__isoc23_strtoul st s false base).1) ∧
    (__isoc23_strtoll st s true base = strtoll st s true base ∧
      (__isoc23_strtoll st s true base).2.endSlot = st.endSlot ∧
      (__isoc23_strtoll st s true base).1 = (__isoc23_strtoll st s false base).1) ∧
    (__isoc23_strtoull st s true base = strtoull st s true base ∧
      (__isoc23_strtoull st s true base).2.endSlot = st.endSlot ∧
      (__isoc23_strtoull st s true base).1 = (__isoc23_strtoull st s false base).1) :=
  ⟨⟨rfl, rfl, rfl⟩, ⟨rfl, rfl, rfl⟩, ⟨rfl, rfl, rfl⟩, ⟨rfl, rfl, rfl⟩⟩

end GlibcShim
